/-
Verification of the task-management core: the Task model and its DTOs
(validation, partial update, status transitions), the query filter builder
(WHERE-clause assembly and pagination), and the error taxonomy (HTTP status,
error code, logging and user-message policy).

Modelling conventions:
- Rust `String` values that are inspected character-wise (title, description)
  are modelled as `List Char`; `len()` is the UTF-8 byte length, `trim()`
  removes leading and trailing whitespace.
- `DateTime<Utc>` instants are modelled as `Int`; each clock read
  (`Utc::now()`) inside an operation becomes an explicit `Int` argument, one
  argument per read, in source order.
- `u32` values are modelled as `Nat`; `u32` multiplication wraps, so it is
  taken modulo 2^32; `Nat` subtraction is saturating, matching
  `u32::saturating_sub`.
- `Uuid` values are modelled by their string rendering.
- `Result<(), String>` becomes `Except String Unit` with the exact error
  messages of the source.
-/
import Mathlib

set_option maxRecDepth 16384

namespace TaskApi

/-- Rust strings inspected character-wise are lists of characters. -/
abbrev Str := List Char

/-- Drop leading whitespace characters (one side of Rust `str::trim`). -/
def trimStart : Str → Str
  | [] => []
  | c :: cs => if c.isWhitespace then trimStart cs else c :: cs

/-- Rust `str::trim`: drop leading and trailing whitespace. -/
def trim (s : Str) : Str :=
  (trimStart (trimStart s.reverse).reverse)

/-- Rust `String::len`: the UTF-8 byte length of the string. -/
def utf8Len (s : Str) : Nat :=
  (s.map Char.utf8Size).sum

/-- `TaskPriority` enum (task.rs). -/
inductive TaskPriority where
  | low
  | medium
  | high
  | critical
deriving DecidableEq

/-- `Default for TaskPriority` is `Medium`. -/
def TaskPriority.default : TaskPriority := .medium

/-- `TaskStatus` enum (task.rs). -/
inductive TaskStatus where
  | pending
  | inProgress
  | completed
  | cancelled
deriving DecidableEq

/-- `Default for TaskStatus` is `Pending`. -/
def TaskStatus.default : TaskStatus := .pending

/-- `format!("{:?}", status).to_lowercase()` as used for query parameters. -/
def TaskStatus.lowercaseDebug : TaskStatus → String
  | .pending => "pending"
  | .inProgress => "inprogress"
  | .completed => "completed"
  | .cancelled => "cancelled"

/-- `format!("{:?}", priority).to_lowercase()` as used for query parameters. -/
def TaskPriority.lowercaseDebug : TaskPriority → String
  | .low => "low"
  | .medium => "medium"
  | .high => "high"
  | .critical => "critical"

/-- The `Task` model (task.rs). -/
structure Task where
  id : String
  title : Str
  description : Option Str
  priority : TaskPriority
  status : TaskStatus
  user_id : String
  created_at : Int
  updated_at : Int
  due_date : Option Int
  completed_at : Option Int
deriving DecidableEq

/-- `Task::new`: `let now = Utc::now();` is captured once and used for both
timestamps; the fresh `Uuid::new_v4()` identity is an explicit argument. -/
def Task.new (id : String) (title : Str) (user_id : String) (now : Int) : Task :=
  { id := id
    title := title
    description := none
    priority := TaskPriority.default
    status := TaskStatus.default
    user_id := user_id
    created_at := now
    updated_at := now
    due_date := none
    completed_at := none }

/-- `Task::complete`: sets status to Completed, then stamps `completed_at`
from a first `Utc::now()` read and `updated_at` from a second, separate read
(the source calls the clock twice). -/
def Task.complete (t : Task) (now1 now2 : Int) : Task :=
  { t with status := .completed, completed_at := some now1, updated_at := now2 }

/-- `Task::update_status`: sets the status and stamps `updated_at` from a
first clock read; when the new status is Completed, additionally stamps
`completed_at` from a second, separate clock read. -/
def Task.update_status (t : Task) (status : TaskStatus) (now1 now2 : Int) : Task :=
  let t1 := { t with status := status, updated_at := now1 }
  if status = .completed then { t1 with completed_at := some now2 } else t1

/-- `Task::is_overdue`: a due date exists, the status is not Completed, and
the current time is strictly after the due date. -/
def Task.is_overdue (t : Task) (now : Int) : Bool :=
  match t.due_date with
  | some due_date =>
      if t.status = .completed then false else decide (due_date < now)
  | none => false

/-- `CreateTaskRequest` DTO (task.rs). -/
structure CreateTaskRequest where
  title : Str
  description : Option Str
  priority : Option TaskPriority
  due_date : Option Int

/-- `CreateTaskRequest::into_task`: builds a fresh task and fills the optional
fields from the request, defaulting the priority to Medium. -/
def CreateTaskRequest.into_task (r : CreateTaskRequest) (id : String)
    (user_id : String) (now : Int) : Task :=
  let t := Task.new id r.title user_id now
  { t with
    description := r.description
    priority := r.priority.getD TaskPriority.default
    due_date := r.due_date }

/-- `CreateTaskRequest::validate`: fail-fast checks in source order. -/
def CreateTaskRequest.validate (r : CreateTaskRequest) (now : Int) :
    Except String Unit :=
  if (trim r.title).isEmpty then
    Except.error "Title cannot be empty"
  else if 255 < utf8Len r.title then
    Except.error "Title must be 255 characters or less"
  else if r.description.any (fun d => 2000 < utf8Len d) then
    Except.error "Description must be 2000 characters or less"
  else if r.due_date.any (fun d => d ≤ now) then
    Except.error "Due date must be in the future"
  else
    Except.ok ()

/-- `UpdateTaskRequest` DTO (task.rs). -/
structure UpdateTaskRequest where
  title : Option Str
  description : Option Str
  priority : Option TaskPriority
  status : Option TaskStatus
  due_date : Option Int

/-- `UpdateTaskRequest::apply_to_task`: in-place partial merge. A present
status goes through `Task::update_status` (clock reads `nowS1`, `nowS2`);
the final unconditional `updated_at = Utc::now()` is a third read `nowF`. -/
def UpdateTaskRequest.apply_to_task (r : UpdateTaskRequest) (t : Task)
    (nowS1 nowS2 nowF : Int) : Task :=
  let t := match r.title with
    | some title => { t with title := title }
    | none => t
  let t := match r.description with
    | some description => { t with description := some description }
    | none => t
  let t := match r.priority with
    | some priority => { t with priority := priority }
    | none => t
  let t := match r.status with
    | some status => t.update_status status nowS1 nowS2
    | none => t
  let t := match r.due_date with
    | some due_date => { t with due_date := some due_date }
    | none => t
  { t with updated_at := nowF }

/-- `UpdateTaskRequest::validate`: same checks as the create DTO, but each
only on the field when it is present. -/
def UpdateTaskRequest.validate (r : UpdateTaskRequest) (now : Int) :
    Except String Unit :=
  if r.title.any (fun title => (trim title).isEmpty) then
    Except.error "Title cannot be empty"
  else if r.title.any (fun title => 255 < utf8Len title) then
    Except.error "Title must be 255 characters or less"
  else if r.description.any (fun d => 2000 < utf8Len d) then
    Except.error "Description must be 2000 characters or less"
  else if r.due_date.any (fun d => d ≤ now) then
    Except.error "Due date must be in the future"
  else
    Except.ok ()

/-- `TaskQuery` filter specification (task.rs). -/
structure TaskQuery where
  status : Option TaskStatus
  priority : Option TaskPriority
  user_id : Option String
  overdue : Option Bool
  page : Option Nat
  limit : Option Nat

/-- The raw boolean sub-expression pushed for `overdue == Some(true)`. -/
def overdueCondition : String :=
  "due_date < NOW() AND status != \x27completed\x27"

/-- `TaskQuery::build_where_clause`: pushes one condition (and, except for
overdue, one parameter) per present filter, in source order, then joins with
" AND ", falling back to the tautology "1=1" when no condition was pushed. -/
def TaskQuery.build_where_clause (q : TaskQuery) : String × List String :=
  let cp : List String × List String := ([], [])
  let cp := match q.status with
    | some status => (cp.1 ++ ["status = ?"], cp.2 ++ [status.lowercaseDebug])
    | none => cp
  let cp := match q.priority with
    | some priority => (cp.1 ++ ["priority = ?"], cp.2 ++ [priority.lowercaseDebug])
    | none => cp
  let cp := match q.user_id with
    | some user_id => (cp.1 ++ ["user_id = ?"], cp.2 ++ [user_id])
    | none => cp
  let cp := match q.overdue with
    | some true => (cp.1 ++ [overdueCondition], cp.2)
    | _ => cp
  let where_clause := if cp.1.isEmpty then "1=1" else String.intercalate " AND " cp.1
  (where_clause, cp.2)

/-- `TaskQuery::get_limit`: default 20, capped at 100. -/
def TaskQuery.get_limit (q : TaskQuery) : Nat :=
  min (q.limit.getD 20) 100

/-- `TaskQuery::get_offset`: `(page.saturating_sub(1)) * limit` with page
defaulting to 1; the `u32` product wraps modulo 2^32. -/
def TaskQuery.get_offset (q : TaskQuery) : Nat :=
  ((q.page.getD 1 - 1) * q.get_limit) % 2 ^ 32

/-- The `ApiError` taxonomy (api_error.rs); each kind carries the display
rendering of its payload as the detail string. -/
inductive ApiError where
  | database (detail : String)
  | validation (detail : String)
  | authentication (detail : String)
  | authorization (detail : String)
  | notFound (detail : String)
  | conflict (detail : String)
  | rateLimit (detail : String)
  | externalService (detail : String)
  | internal (detail : String)
  | jwt (detail : String)
  | serialization (detail : String)
deriving DecidableEq

/-- `ApiError::status_code` (HTTP status, as its numeric value). -/
def ApiError.status_code : ApiError → Nat
  | .database _ => 500
  | .validation _ => 400
  | .authentication _ => 401
  | .authorization _ => 403
  | .notFound _ => 404
  | .conflict _ => 409
  | .rateLimit _ => 429
  | .externalService _ => 502
  | .internal _ => 500
  | .jwt _ => 401
  | .serialization _ => 400

/-- `ApiError::error_code`. -/
def ApiError.error_code : ApiError → String
  | .database _ => "DATABASE_ERROR"
  | .validation _ => "VALIDATION_ERROR"
  | .authentication _ => "AUTHENTICATION_ERROR"
  | .authorization _ => "AUTHORIZATION_ERROR"
  | .notFound _ => "NOT_FOUND"
  | .conflict _ => "CONFLICT"
  | .rateLimit _ => "RATE_LIMIT_EXCEEDED"
  | .externalService _ => "EXTERNAL_SERVICE_ERROR"
  | .internal _ => "INTERNAL_ERROR"
  | .jwt _ => "JWT_ERROR"
  | .serialization _ => "SERIALIZATION_ERROR"

/-- `ApiError::should_log`: true only for the system-fault kinds. -/
def ApiError.should_log : ApiError → Bool
  | .database _ => true
  | .externalService _ => true
  | .internal _ => true
  | _ => false

/-- The `thiserror` `#[error("...")]` display rendering of each kind. -/
def ApiError.display : ApiError → String
  | .database s => "Database error: " ++ s
  | .validation s => "Validation error: " ++ s
  | .authentication s => "Authentication failed: " ++ s
  | .authorization s => "Authorization failed: " ++ s
  | .notFound s => "Resource not found: " ++ s
  | .conflict s => "Conflict: " ++ s
  | .rateLimit s => "Rate limit exceeded: " ++ s
  | .externalService s => "External service error: " ++ s
  | .internal s => "Internal server error: " ++ s
  | .jwt s => "JWT error: " ++ s
  | .serialization s => "Serialization error: " ++ s

/-- `ApiError::user_message`: a fixed generic sentence for the system-fault
kinds, the display rendering (`self.to_string()`) for every other kind. -/
def ApiError.user_message : ApiError → String
  | .database _ => "A database error occurred. Please try again later."
  | .externalService _ => "An external service is temporarily unavailable."
  | .internal _ => "An internal error occurred. Please try again later."
  | e => e.display

/-- One mutation of a task, with the instants its clock reads return made
explicit (one argument per `Utc::now()` call, in source order). -/
inductive TaskOp where
  | complete (now1 now2 : Int)
  | updateStatus (status : TaskStatus) (now1 now2 : Int)
  | applyUpdate (r : UpdateTaskRequest) (nowS1 nowS2 nowF : Int)

/-- Run one mutation on a task. -/
def TaskOp.run (t : Task) : TaskOp → Task
  | .complete now1 now2 => t.complete now1 now2
  | .updateStatus status now1 now2 => t.update_status status now1 now2
  | .applyUpdate r nowS1 nowS2 nowF => r.apply_to_task t nowS1 nowS2 nowF

/-- Whether a mutation sets the status to Completed. -/
def TaskOp.setsCompleted : TaskOp → Bool
  | .complete _ _ => true
  | .updateStatus status _ _ => status = .completed
  | .applyUpdate r _ _ _ => r.status = some .completed

/-- Run a sequence of mutations, oldest first. -/
def runOps (t : Task) (ops : List TaskOp) : Task :=
  ops.foldl TaskOp.run t


/- ===== Spec-side definition (for the clause-builder refinement claim) ===== -/

/-- Spec-side restatement of the clause-builder contract: one
(predicate, parameters) item per contributing filter in the fixed order
status, priority, user_id, overdue, where overdue contributes (with no bound
parameter) only when it is `some true`; predicates joined with " AND ",
parameters concatenated in item order, and the tautology "1=1" with no
parameters when nothing contributes. -/
def whereClauseSpec (q : TaskQuery) : String × List String :=
  let items : List (String × List String) :=
    (match q.status with
      | some s => [("status = ?", [s.lowercaseDebug])]
      | none => [])
    ++ (match q.priority with
      | some p => [("priority = ?", [p.lowercaseDebug])]
      | none => [])
    ++ (match q.user_id with
      | some u => [("user_id = ?", [u])]
      | none => [])
    ++ (if q.overdue = some true then [(overdueCondition, [])] else [])
  if items = [] then ("1=1", [])
  else (String.intercalate " AND " (items.map Prod.fst), (items.map Prod.snd).flatten)

/- ===== Helper lemmas ===== -/

/-- Success characterization of `CreateTaskRequest::validate`. -/
theorem createValidate_ok_iff (r : CreateTaskRequest) (now : Int) :
    r.validate now = Except.ok () ↔
      (trim r.title ≠ [] ∧ utf8Len r.title ≤ 255 ∧
       (∀ d, r.description = some d → utf8Len d ≤ 2000) ∧
       (∀ dd, r.due_date = some dd → now < dd)) := by
  rcases r with ⟨title, desc, prio, due⟩
  unfold CreateTaskRequest.validate
  cases desc <;> cases due <;>
    simp [Option.any] <;> split_ifs <;> simp_all

/-- Success characterization of `UpdateTaskRequest::validate`. -/
theorem updateValidate_ok_iff (r : UpdateTaskRequest) (now : Int) :
    r.validate now = Except.ok () ↔
      ((∀ t, r.title = some t → trim t ≠ [] ∧ utf8Len t ≤ 255) ∧
       (∀ d, r.description = some d → utf8Len d ≤ 2000) ∧
       (∀ dd, r.due_date = some dd → now < dd)) := by
  rcases r with ⟨ti, desc, prio, st, due⟩
  unfold UpdateTaskRequest.validate
  cases ti <;> cases desc <;> cases due <;>
    simp [Option.any] <;> split_ifs <;> simp_all

/-- `apply_to_task` leaves `completed_at` set exactly when it was already set
or the request sets the status to Completed. -/
theorem apply_completed_at_isSome (r : UpdateTaskRequest) (t : Task)
    (n1 n2 n3 : Int) :
    ((r.apply_to_task t n1 n2 n3).completed_at).isSome =
      (t.completed_at.isSome || decide (r.status = some .completed)) := by
  rcases r with ⟨ti, de, pr, st, du⟩
  rcases st with _ | s
  · rcases ti <;> rcases de <;> rcases pr <;> rcases du <;>
      simp [UpdateTaskRequest.apply_to_task]
  · rcases s <;> rcases ti <;> rcases de <;> rcases pr <;> rcases du <;>
      simp [UpdateTaskRequest.apply_to_task, Task.update_status]

/-- One mutation step: `completed_at` is set afterwards exactly when it was
already set or the step sets the status to Completed. -/
theorem run_completed_at_isSome (t : Task) (op : TaskOp) :
    ((TaskOp.run t op).completed_at).isSome =
      (t.completed_at.isSome || op.setsCompleted) := by
  rcases op with ⟨n1, n2⟩ | ⟨s, n1, n2⟩ | ⟨r, n1, n2, n3⟩
  · simp [TaskOp.run, Task.complete, TaskOp.setsCompleted]
  · rcases s <;>
      simp [TaskOp.run, Task.update_status, TaskOp.setsCompleted]
  · rw [show TaskOp.run t (.applyUpdate r n1 n2 n3) = r.apply_to_task t n1 n2 n3 from rfl,
      apply_completed_at_isSome]
    simp [TaskOp.setsCompleted]

/-- Over a whole sequence of mutations: `completed_at` is set exactly when it
was set at the start or some step sets the status to Completed. -/
theorem runOps_completed_at_isSome (ops : List TaskOp) (t : Task) :
    ((runOps t ops).completed_at).isSome =
      (t.completed_at.isSome || ops.any TaskOp.setsCompleted) := by
  induction ops generalizing t with
  | nil => simp [runOps]
  | cons op rest ih =>
      simp only [runOps, List.foldl_cons, List.any_cons]
      rw [show rest.foldl TaskOp.run (TaskOp.run t op) = runOps (TaskOp.run t op) rest from rfl]
      rw [ih, run_completed_at_isSome]
      cases t.completed_at.isSome <;> cases op.setsCompleted <;> simp

/- ===== Claim theorems ===== -/

/-- C1: `validate` succeeds on a create request exactly when the title is
non-empty after trimming and at most 255 (byte-length) characters, the
description when present is at most 2000, and the due date when present is
strictly after the evaluation-time now; on an update request the same
constraints apply only to present fields, and absent fields never cause a
failure. A 255-character title passes, a 256-character one fails, and a due
date equal to now fails. -/
theorem validate_spec :
    (∀ (r : CreateTaskRequest) (now : Int),
        r.validate now = Except.ok () ↔
          (trim r.title ≠ [] ∧ utf8Len r.title ≤ 255 ∧
           (∀ d, r.description = some d → utf8Len d ≤ 2000) ∧
           (∀ dd, r.due_date = some dd → now < dd))) ∧
    (∀ (r : UpdateTaskRequest) (now : Int),
        r.validate now = Except.ok () ↔
          ((∀ t, r.title = some t → trim t ≠ [] ∧ utf8Len t ≤ 255) ∧
           (∀ d, r.description = some d → utf8Len d ≤ 2000) ∧
           (∀ dd, r.due_date = some dd → now < dd))) ∧
    CreateTaskRequest.validate ⟨List.replicate 255 'a', none, none, none⟩ 0 =
      Except.ok () ∧
    CreateTaskRequest.validate ⟨List.replicate 256 'a', none, none, none⟩ 0 =
      Except.error "Title must be 255 characters or less" ∧
    CreateTaskRequest.validate ⟨['o', 'k'], none, none, some 5⟩ 5 =
      Except.error "Due date must be in the future" ∧
    UpdateTaskRequest.validate ⟨none, none, none, none, none⟩ 0 = Except.ok () :=
  ⟨createValidate_ok_iff, updateValidate_ok_iff, by rfl, by rfl, by rfl, by rfl⟩

/-- C2 counterexample: with `overdue = Some(false)` as the only present
filter, `build_where_clause` emits no predicate at all — the clause is the
bare tautology rather than (or containing) the overdue sub-expression — so a
present filter field does not always contribute a predicate. -/
theorem overdue_false_counterexample :
    TaskQuery.build_where_clause ⟨none, none, none, some false, none, none⟩ =
      ("1=1", []) ∧
    ("1=1" : String) ≠ overdueCondition :=
  ⟨by rfl, by decide⟩

/-- C2 (amended): `build_where_clause` emits one AND-joined predicate per
contributing filter in the fixed order status, priority, user_id, overdue,
where each of status/priority/user_id contributes one "= ?" placeholder and
one positional parameter, the overdue filter contributes the raw boolean
sub-expression (no parameter) only when it is `Some(true)`, and when nothing
contributes the clause is the tautology "1=1" with an empty parameter list. -/
theorem build_where_clause_spec :
    (∀ q : TaskQuery, q.build_where_clause = whereClauseSpec q) ∧
    TaskQuery.build_where_clause ⟨none, none, none, none, none, none⟩ =
      ("1=1", []) ∧
    TaskQuery.build_where_clause
        ⟨some .pending, some .high, none, none, none, none⟩ =
      ("status = ? AND priority = ?", ["pending", "high"]) := by
  refine ⟨?_, by rfl, by rfl⟩
  intro q
  rcases q with ⟨st, pr, uid, ov, pg, lim⟩
  rcases st with _ | s <;> rcases pr with _ | p <;> rcases uid with _ | u <;>
    rcases ov with _ | b <;> first
      | rfl
      | (rcases b <;> rfl)

/-- C3 counterexample: at page 2^27 with limit 100 the returned offset is not
the unbounded product (page − 1) × limit. -/
theorem offset_overflow_counterexample :
    TaskQuery.get_limit ⟨none, none, none, none, some 134217728, some 100⟩ = 100 ∧
    TaskQuery.get_offset ⟨none, none, none, none, some 134217728, some 100⟩ ≠
      (134217728 - 1) * 100 := by
  refine ⟨by rfl, ?_⟩
  norm_num [TaskQuery.get_offset, TaskQuery.get_limit]

/-- C3 (amended): `get_limit` returns the given limit unchanged when at most
100, returns 100 when greater (silently clamped), and 20 when absent;
`get_offset` is the u32 product (page saturating-minus 1) × get_limit taken
modulo 2^32, with page defaulting to 1, so page 0 and page 1 both give offset
0, and page 3 with limit 10 gives offset 20. -/
theorem pagination_spec :
    (∀ (q : TaskQuery) (l : Nat), q.limit = some l ∧ l ≤ 100 → q.get_limit = l) ∧
    (∀ (q : TaskQuery) (l : Nat), q.limit = some l ∧ 100 < l → q.get_limit = 100) ∧
    (∀ q : TaskQuery, q.limit = none → q.get_limit = 20) ∧
    (∀ q : TaskQuery,
        q.get_offset = ((q.page.getD 1 - 1) * q.get_limit) % 2 ^ 32) ∧
    (∀ q : TaskQuery,
        q.page = some 0 ∨ q.page = some 1 ∨ q.page = none → q.get_offset = 0) ∧
    (∀ (st : Option TaskStatus) (pr : Option TaskPriority) (uid : Option String)
        (ov : Option Bool),
        TaskQuery.get_offset ⟨st, pr, uid, ov, some 3, some 10⟩ = 20) := by
  refine ⟨?_, ?_, ?_, fun _ => rfl, ?_, fun _ _ _ _ => rfl⟩
  · rintro q l ⟨h, hl⟩; simp [TaskQuery.get_limit, h]; omega
  · rintro q l ⟨h, hl⟩; simp [TaskQuery.get_limit, h]; omega
  · intro q h; simp [TaskQuery.get_limit, h]
  · rintro q (h | h | h) <;> simp [TaskQuery.get_offset, h]

/-- C4: the error mapping is the fixed table — status codes per kind, one
constant error-code string per kind, and `should_log` is true exactly for the
Database, ExternalService and Internal kinds. -/
theorem error_table_spec :
    (∀ s : String,
        (ApiError.database s).status_code = 500 ∧
        (ApiError.validation s).status_code = 400 ∧
        (ApiError.authentication s).status_code = 401 ∧
        (ApiError.authorization s).status_code = 403 ∧
        (ApiError.notFound s).status_code = 404 ∧
        (ApiError.conflict s).status_code = 409 ∧
        (ApiError.rateLimit s).status_code = 429 ∧
        (ApiError.externalService s).status_code = 502 ∧
        (ApiError.internal s).status_code = 500 ∧
        (ApiError.jwt s).status_code = 401 ∧
        (ApiError.serialization s).status_code = 400) ∧
    (∀ s : String,
        (ApiError.database s).error_code = "DATABASE_ERROR" ∧
        (ApiError.validation s).error_code = "VALIDATION_ERROR" ∧
        (ApiError.authentication s).error_code = "AUTHENTICATION_ERROR" ∧
        (ApiError.authorization s).error_code = "AUTHORIZATION_ERROR" ∧
        (ApiError.notFound s).error_code = "NOT_FOUND" ∧
        (ApiError.conflict s).error_code = "CONFLICT" ∧
        (ApiError.rateLimit s).error_code = "RATE_LIMIT_EXCEEDED" ∧
        (ApiError.externalService s).error_code = "EXTERNAL_SERVICE_ERROR" ∧
        (ApiError.internal s).error_code = "INTERNAL_ERROR" ∧
        (ApiError.jwt s).error_code = "JWT_ERROR" ∧
        (ApiError.serialization s).error_code = "SERIALIZATION_ERROR") ∧
    (∀ e : ApiError,
        e.should_log = true ↔
          (∃ s, e = ApiError.database s ∨ e = ApiError.externalService s ∨
            e = ApiError.internal s)) := by
  refine ⟨fun s => ⟨rfl, rfl, rfl, rfl, rfl, rfl, rfl, rfl, rfl, rfl, rfl⟩,
    fun s => ⟨rfl, rfl, rfl, rfl, rfl, rfl, rfl, rfl, rfl, rfl, rfl⟩, ?_⟩
  intro e
  cases e <;> simp [ApiError.should_log]

/-- C5 counterexample: `user_message` on a Validation error is the display
rendering with its kind prefix, not the bare detail string the error was
constructed with. -/
theorem user_message_counterexample :
    (ApiError.validation "Invalid email format").user_message =
      "Validation error: Invalid email format" ∧
    ("Validation error: Invalid email format" : String) ≠ "Invalid email format" :=
  ⟨rfl, by decide⟩

/-- C5 (amended): `user_message` returns a fixed generic sentence, independent
of the detail, for the Database, ExternalService and Internal kinds, and for
every other kind returns the kind's display message: a fixed kind prefix
followed by the detail string. -/
theorem user_message_spec (s : String) :
    (ApiError.database s).user_message =
      "A database error occurred. Please try again later." ∧
    (ApiError.externalService s).user_message =
      "An external service is temporarily unavailable." ∧
    (ApiError.internal s).user_message =
      "An internal error occurred. Please try again later." ∧
    (ApiError.validation s).user_message = "Validation error: " ++ s ∧
    (ApiError.authentication s).user_message = "Authentication failed: " ++ s ∧
    (ApiError.authorization s).user_message = "Authorization failed: " ++ s ∧
    (ApiError.notFound s).user_message = "Resource not found: " ++ s ∧
    (ApiError.conflict s).user_message = "Conflict: " ++ s ∧
    (ApiError.rateLimit s).user_message = "Rate limit exceeded: " ++ s ∧
    (ApiError.jwt s).user_message = "JWT error: " ++ s ∧
    (ApiError.serialization s).user_message = "Serialization error: " ++ s :=
  ⟨rfl, rfl, rfl, rfl, rfl, rfl, rfl, rfl, rfl, rfl, rfl⟩

/-- C6: starting from `Task::new` (where `completed_at` is None), after any
sequence of `complete`, `update_status` and `apply_to_task` calls,
`completed_at` is Some exactly when some call in the sequence set the status
to Completed; each single step preserves an already-set `completed_at`, so no
operation ever clears it. -/
theorem completed_at_invariant :
    (∀ (t : Task) (op : TaskOp),
        ((TaskOp.run t op).completed_at).isSome =
          (t.completed_at.isSome || op.setsCompleted)) ∧
    (∀ (id : String) (title : Str) (uid : String) (now : Int)
        (ops : List TaskOp),
        ((runOps (Task.new id title uid now) ops).completed_at).isSome = true ↔
          ∃ op ∈ ops, op.setsCompleted = true) := by
  refine ⟨run_completed_at_isSome, ?_⟩
  intro id title uid now ops
  rw [runOps_completed_at_isSome]
  simp [Task.new, List.any_eq_true]

/-- C7: `is_overdue` is true exactly when a due date exists, the status is
not Completed, and the current time is strictly after the due date; after
`complete`, `is_overdue` is false for every due date and every now. -/
theorem is_overdue_spec :
    (∀ (t : Task) (now : Int),
        t.is_overdue now = true ↔
          ∃ d, t.due_date = some d ∧ t.status ≠ .completed ∧ d < now) ∧
    (∀ (t : Task) (n1 n2 now : Int),
        (t.complete n1 n2).is_overdue now = false) := by
  constructor
  · intro t now
    rcases t with ⟨id, ti, de, pr, st, uid, ca, ua, du, co⟩
    rcases du with _ | d
    · simp [Task.is_overdue]
    · simp only [Task.is_overdue]
      split_ifs <;> simp_all
  · intro t n1 n2 now
    rcases t with ⟨id, ti, de, pr, st, uid, ca, ua, du, co⟩
    rcases du with _ | d <;> simp [Task.complete, Task.is_overdue]

/-- C8: `Task::new` does capture one now for both timestamps, but
`Task::complete` reads the clock once for `completed_at` and again for
`updated_at`; when the two reads differ (here 0 then 1) the two stamped
fields observe different instants, so `completed_at = Some(updated_at)` fails. -/
theorem complete_clock_reads_diverge :
    (∀ (id : String) (title : Str) (uid : String) (now : Int),
        (Task.new id title uid now).created_at =
          (Task.new id title uid now).updated_at) ∧
    ((Task.new "i" [] "u" 0).complete 0 1).completed_at = some 0 ∧
    ((Task.new "i" [] "u" 0).complete 0 1).updated_at = 1 ∧
    ((Task.new "i" [] "u" 0).complete 0 1).completed_at ≠
      some (((Task.new "i" [] "u" 0).complete 0 1).updated_at) :=
  ⟨fun _ _ _ _ => rfl, rfl, rfl, by decide⟩

/-- C9: `get_offset` is the wrapped u32 product: it equals
((page − 1) × limit) mod 2^32, and at page 2^27 with limit 100 it returns
536870812, not the unbounded product 13421772700. -/
theorem get_offset_wraps :
    (∀ q : TaskQuery,
        q.get_offset = ((q.page.getD 1 - 1) * q.get_limit) % 2 ^ 32) ∧
    TaskQuery.get_offset ⟨none, none, none, none, some 134217728, some 100⟩ =
      536870812 ∧
    (134217728 - 1) * 100 = 13421772700 ∧
    TaskQuery.get_offset ⟨none, none, none, none, some 134217728, some 100⟩ ≠
      (134217728 - 1) * 100 := by
  refine ⟨fun _ => rfl, by norm_num [TaskQuery.get_offset, TaskQuery.get_limit],
    by norm_num, ?_⟩
  norm_num [TaskQuery.get_offset, TaskQuery.get_limit]

/-- C10: a present-but-false overdue flag contributes nothing —
`build_where_clause` on a query with `overdue = Some(false)` returns exactly
what it returns with `overdue = None`, all other fields unchanged. -/
theorem overdue_false_like_none (q : TaskQuery) :
    TaskQuery.build_where_clause { q with overdue := some false } =
      TaskQuery.build_where_clause { q with overdue := none } := rfl

end TaskApi
